import Mathlib

/-!
Shallow embedding of the rag-chatbot-ollama repository (config.py,
document_loader.py, rag_engine.py, api.py, app.py) and proofs about it.

External collaborators (the Chroma vector index, the Ollama embedding and
generation services, the text splitter) are not code of this repository;
each call into them is modelled by an explicit parameter carrying that
call's outcome (`Except String _` when the call can raise). The
repository's own branching, state updates and return values are translated
line by line from the Python source.
-/

namespace RAG

/-- Python's `str.lower()` (ASCII-adequate model). -/
def pyLower (s : String) : String :=
  String.mk (s.data.map Char.toLower)

/-- The extension part of `os.path.splitext(path)[1]`: the suffix of the last
path component starting at its last dot, where leading dots of the component
do not count (so ".bashrc" has extension ""). -/
def splitextExt (path : String) : String :=
  let base := path.data.foldl (fun acc c => if c = '/' then [] else acc ++ [c]) []
  let lead := (base.takeWhile (fun c => c = '.')).length
  let rest := base.drop lead
  let revAfter := rest.reverse.takeWhile (fun c => c ≠ '.')
  if revAfter.length = rest.length then ""
  else String.mk ('.' :: revAfter.reverse)

/-- config.py: class Config. -/
structure Config where
  OLLAMA_BASE_URL : String
  OLLAMA_MODEL : String
  EMBEDDING_MODEL : String
  CHROMA_PERSIST_DIR : String
  COLLECTION_NAME : String
  CHUNK_SIZE : Nat
  CHUNK_OVERLAP : Nat
  TOP_K_RESULTS : Nat
  SUPPORTED_EXTENSIONS : List String
deriving DecidableEq

/-- config.py: the module-level `config = Config()` singleton. -/
def config : Config :=
  { OLLAMA_BASE_URL := "http://localhost:11434"
  , OLLAMA_MODEL := "llama3.2:latest"
  , EMBEDDING_MODEL := "all-MiniLM-L6-v2"
  , CHROMA_PERSIST_DIR := "./chroma_db"
  , COLLECTION_NAME := "document_qa"
  , CHUNK_SIZE := 500
  , CHUNK_OVERLAP := 50
  , TOP_K_RESULTS := 3
  , SUPPORTED_EXTENSIONS := [".pdf", ".txt", ".docx", ".md"] }

/-- A LangChain `Document`: page content plus provenance metadata. -/
structure Document where
  page_content : String
  metadata : List (String × String)
deriving DecidableEq

/-- The `OllamaEmbeddings(model=…, base_url=…)` handle. -/
structure Embeddings where
  model : String
  base_url : String
deriving DecidableEq

/-- The `OllamaLLM(model=…, base_url=…, temperature=0.0)` handle. -/
structure LLM where
  model : String
  base_url : String
  temperature : ℚ
deriving DecidableEq

/-- A Chroma vector-store handle: the collection it is bound to, the
embedding function it was constructed with, and the collection's entries. -/
structure Vectorstore where
  collection_name : String
  embedding : Embeddings
  entries : List Document
deriving DecidableEq

/-- `vectorstore.as_retriever(search_kwargs={"k": …})`. -/
structure Retriever where
  store : Vectorstore
  k : Nat
deriving DecidableEq

/-- `PromptTemplate(template=…, input_variables=…)`. -/
structure PromptTemplate where
  template : String
  input_variables : List String
deriving DecidableEq

/-- `RetrievalQA.from_chain_type(llm=…, chain_type="stuff", retriever=…,
chain_type_kwargs={"prompt": …}, return_source_documents=True)`. -/
structure QAChain where
  llm : LLM
  chain_type : String
  retriever : Retriever
  prompt : PromptTemplate
  return_source_documents : Bool
deriving DecidableEq

/-- The mutable attributes of a `RAGEngine` instance. -/
structure EngineState where
  embeddings : Embeddings
  llm : LLM
  vectorstore : Option Vectorstore
  qa_chain : Option QAChain
deriving DecidableEq

/-- rag_engine.py line 64: the custom prompt template string. -/
def prompt_template : String :=
  "Use the following context to answer the question. If you cannot answer based on the context, say \"I don\x27t have enough information to answer this question.\"\n\nContext: {context}\n\nQuestion: {question}\n\nAnswer:"

/-- rag_engine.py `RAGEngine.__init__`: embeddings model is the hardcoded
string "nomic-embed-text" (the source comment says: use Ollama for
embeddings, no torch compatibility issues), not `config.EMBEDDING_MODEL`;
`vectorstore` and `qa_chain` start as `None`. -/
def RAGEngine.init : EngineState :=
  { embeddings := { model := "nomic-embed-text", base_url := config.OLLAMA_BASE_URL }
  , llm := { model := config.OLLAMA_MODEL, base_url := config.OLLAMA_BASE_URL, temperature := 0 }
  , vectorstore := none
  , qa_chain := none }

/-- `Chroma.from_documents(documents=…, embedding=…, collection_name=…,
persist_directory=…)`: builds/extends the persisted collection (whose prior
entries are the `persisted` parameter) with the given documents. -/
def Chroma.from_documents (persisted : List Document) (documents : List Document)
    (embedding : Embeddings) (collection_name : String) : Vectorstore :=
  { collection_name := collection_name, embedding := embedding
  , entries := persisted ++ documents }

/-- rag_engine.py `RAGEngine._setup_qa_chain`: builds the RetrievalQA chain
over `self.vectorstore`. Every caller assigns `self.vectorstore` immediately
before calling it, so the `none` case is unreachable at all call sites. -/
def setup_qa_chain (s : EngineState) : EngineState :=
  { s with qa_chain := s.vectorstore.map (fun vs =>
      { llm := s.llm
      , chain_type := "stuff"
      , retriever := { store := vs, k := config.TOP_K_RESULTS }
      , prompt := { template := prompt_template
                  , input_variables := ["context", "question"] }
      , return_source_documents := true }) }

/-- rag_engine.py `RAGEngine.create_vectorstore(documents)`: no input
validation; assigns `self.vectorstore`, calls `_setup_qa_chain`, and
returns `len(documents)`. `persisted` is the prior content of the
persisted collection the external store extends. -/
def create_vectorstore (s : EngineState) (persisted : List Document)
    (documents : List Document) : Nat × EngineState :=
  let vs := Chroma.from_documents persisted documents s.embeddings config.COLLECTION_NAME
  let s := setup_qa_chain { s with vectorstore := some vs }
  (documents.length, s)

/-- rag_engine.py `RAGEngine.load_existing_vectorstore`: tries
`Chroma(collection_name=…, embedding_function=self.embeddings,
persist_directory=…)`; on success sets up the chain and returns True, on
any exception returns False. `chromaOpen` is the outcome of the external
constructor (ok carries the persisted entries it finds). -/
def load_existing_vectorstore (s : EngineState)
    (chromaOpen : Except String (List Document)) : Bool × EngineState :=
  match chromaOpen with
  | .ok persisted =>
      let vs : Vectorstore :=
        { collection_name := config.COLLECTION_NAME
        , embedding := s.embeddings, entries := persisted }
      (true, setup_qa_chain { s with vectorstore := some vs })
  | .error _ => (false, s)

/-- The `{ 'answer': …, 'sources': … }` dict returned by `RAGEngine.query`. -/
structure QueryResult where
  answer : String
  sources : List Document
deriving DecidableEq

/-- rag_engine.py `RAGEngine.query(question)`: if `not self.qa_chain`,
returns the no-documents sentinel; otherwise invokes the chain
(`invokeResult` is the outcome of `self.qa_chain.invoke({"query": question})`,
ok carrying `(result['result'], result['source_documents'])`), and converts
any exception `e` into `{'answer': f'Error: {str(e)}', 'sources': []}`.
It assigns no attribute, so the engine state is unchanged. -/
def query (s : EngineState) (question : String)
    (invokeResult : Except String (String × List Document)) : QueryResult :=
  if s.qa_chain.isNone then
    { answer := "No documents loaded. Please upload documents first.", sources := [] }
  else
    match invokeResult with
    | .ok r => { answer := r.fst, sources := r.snd }
    | .error e => { answer := "Error: " ++ e, sources := [] }

/-- The `{'total_chunks': …}` dict returned by `RAGEngine.get_stats`. -/
structure Stats where
  total_chunks : Nat
deriving DecidableEq

/-- rag_engine.py `RAGEngine.get_stats`: 0 when `self.vectorstore` is None;
otherwise `self.vectorstore._collection.count()` — the entry count of the
collection — with any exception swallowed into 0 (`backendOk` is whether
the external count call succeeds). -/
def get_stats (s : EngineState) (backendOk : Bool) : Stats :=
  match s.vectorstore with
  | none => { total_chunks := 0 }
  | some vs => if backendOk then { total_chunks := vs.entries.length } else { total_chunks := 0 }

/-- rag_engine.py `RAGEngine.clear_database`: if `self.vectorstore` is set,
calls `self.vectorstore._client.delete_collection(config.COLLECTION_NAME)`
(outcome `deleteResult`), then clears both attributes and returns True; an
exception skips the assignments and returns False; with no vectorstore it
returns True at once without touching the external store. -/
def clear_database (s : EngineState) (deleteResult : Except String Unit) :
    Bool × EngineState :=
  match s.vectorstore with
  | none => (true, s)
  | some _ =>
    match deleteResult with
    | .ok _ => (true, { s with vectorstore := none, qa_chain := none })
    | .error _ => (false, s)

/-- A raised Python exception, as the caller observes it: the class that was
raised and its `str(e)` message. -/
structure Exn where
  cls : String
  message : String
deriving DecidableEq

/-- document_loader.py `DocumentLoader.load_document(file_path)`: computes
`ext = os.path.splitext(file_path)[1].lower()`; inside one `try`, dispatches
to a loader for `.pdf`/`.txt`/`.docx`/`.md` and for any other extension
raises `ValueError(f"Unsupported file type: {ext}")`; the single
`except Exception as e` catches both that ValueError and any loader failure
and re-raises the generic `Exception(f"Error loading {file_path}: {str(e)}")`.
`loadResult` is the outcome of the selected external loader's `load()`. -/
def load_document (file_path : String)
    (loadResult : Except String (List Document)) : Except Exn (List Document) :=
  let ext := pyLower (splitextExt file_path)
  let inner : Except String (List Document) :=
    if ext = ".pdf" then loadResult
    else if ext = ".txt" then loadResult
    else if ext = ".docx" then loadResult
    else if ext = ".md" then loadResult
    else .error ("Unsupported file type: " ++ ext)
  match inner with
  | .ok docs => .ok docs
  | .error msg =>
      .error { cls := "Exception", message := "Error loading " ++ file_path ++ ": " ++ msg }

/-- The accumulation loop of `DocumentLoader.process_documents`: loads each
path in order, extending `all_docs`; the first exception propagates. -/
def loadAll (file_paths : List String)
    (loadOracle : String → Except String (List Document)) : Except Exn (List Document) :=
  match file_paths with
  | [] => .ok []
  | p :: rest =>
    match load_document p (loadOracle p) with
    | .error e => .error e
    | .ok docs =>
      match loadAll rest loadOracle with
      | .error e => .error e
      | .ok more => .ok (docs ++ more)

/-- document_loader.py `DocumentLoader.process_documents(file_paths)`: loads
every file, then applies `self.text_splitter.split_documents` (the external
RecursiveCharacterTextSplitter, modelled by the `split` parameter) to the
accumulated documents. -/
def process_documents (file_paths : List String)
    (loadOracle : String → Except String (List Document))
    (split : List Document → List Document) : Except Exn (List Document) :=
  match loadAll file_paths loadOracle with
  | .error e => .error e
  | .ok all => .ok (split all)

/-- An uploaded file as the front ends see it: its client-side name and its
bytes. -/
structure UploadFile where
  filename : String
  content : String
deriving DecidableEq

/-- A FastAPI `HTTPException(status_code=…, detail=…)`. -/
structure HTTPErr where
  status_code : Nat
  detail : String
deriving DecidableEq

/-- The success body of api.py's `/upload` endpoint. -/
structure UploadResponse where
  message : String
  total_chunks : Nat
  files_processed : Nat
deriving DecidableEq

/-- `str(config.SUPPORTED_EXTENSIONS)` as Python renders it inside the
f-string of api.py's unsupported-type detail. -/
def SUPPORTED_EXTENSIONS_STR : String :=
  "[\x27.pdf\x27, \x27.txt\x27, \x27.docx\x27, \x27.md\x27]"

/-- api.py upload staging loop: for each uploaded file, validate the
lowercased extension against `config.SUPPORTED_EXTENSIONS` (raising the 400
HTTPException on the first offender) and otherwise stage the bytes into a
fresh `NamedTemporaryFile(delete=False, suffix=file_ext)` (temp names
modelled deterministically as "tmp<i><ext>"). Returns the temp files
created so far and the exception, if one was raised. -/
def stageLoop : List UploadFile → Nat → List String → List String × Option HTTPErr
  | [], _, acc => (acc, none)
  | f :: rest, i, acc =>
    let ext := pyLower (splitextExt f.filename)
    if ext ∈ config.SUPPORTED_EXTENSIONS then
      stageLoop rest (i + 1) (acc ++ ["tmp" ++ toString i ++ ext])
    else
      (acc, some { status_code := 400
                 , detail := "Unsupported file type: " ++ ext ++ ". Supported: "
                     ++ SUPPORTED_EXTENSIONS_STR })

/-- The `finally` loop of api.py's upload handler (and the success-path loop
of app.py): `for temp_file in temp_files: os.unlink(temp_file)`, applied to
a filesystem holding `tempFS`. -/
def unlinkAll (tempFS : List String) (temps : List String) : List String :=
  temps.foldl (fun fs t => fs.erase t) tempFS

/-- api.py `upload_documents(files)` (lines 96-149): 400 on an empty file
list (raised before any temp file exists); then, inside `try`, stage each
file (400 on a bad extension), run the loader (its generic exception becomes
a 500 via `except Exception`), 400 when no chunks were extracted, otherwise
ingest and answer 200; the `finally` block unlinks every staged temp file on
every one of these paths. Returns (response, new engine state, temp files
still on disk afterwards). -/
def upload_documents (files : List UploadFile) (s : EngineState)
    (persisted : List Document)
    (loadOracle : String → Except String (List Document))
    (split : List Document → List Document) :
    Except HTTPErr UploadResponse × EngineState × List String :=
  if files.isEmpty then
    (.error { status_code := 400, detail := "No files provided" }, s, [])
  else
    let staged := stageLoop files 0 []
    let temps := staged.fst
    let step : Except HTTPErr UploadResponse × EngineState :=
      match staged.snd with
      | some e => (.error e, s)
      | none =>
        match process_documents temps loadOracle split with
        | .error exn =>
            (.error { status_code := 500
                    , detail := "Error processing documents: " ++ exn.message }, s)
        | .ok chunks =>
          if chunks.isEmpty then
            (.error { status_code := 400
                    , detail := "No content extracted from documents" }, s)
          else
            let r := create_vectorstore s persisted chunks
            (.ok { message := "Documents processed successfully"
                 , total_chunks := r.fst
                 , files_processed := files.length }, r.snd)
    (step.fst, step.snd, unlinkAll temps temps)

/-- app.py staging loop (lines 50-57): every uploaded file is written to a
`NamedTemporaryFile(delete=False, suffix=os.path.splitext(name)[1])` — no
extension re-validation and no lowercasing of the suffix. -/
def appStage : List UploadFile → Nat → List String
  | [], _ => []
  | f :: rest, i => ("tmp" ++ toString i ++ splitextExt f.filename) :: appStage rest (i + 1)

/-- app.py "Process Documents" handler (lines 45-76): inside `try`, stage all
files, run the loader, ingest, and only then unlink the temp files; the
`except Exception` branch shows an error banner and performs no cleanup, so
the staged temp files stay on disk on that path. Returns (error banner if
shown, new engine state, temp files still on disk afterwards). -/
def app_process_documents (uploaded_files : List UploadFile) (s : EngineState)
    (persisted : List Document)
    (loadOracle : String → Except String (List Document))
    (split : List Document → List Document) :
    Option String × EngineState × List String :=
  let temp_paths := appStage uploaded_files 0
  match process_documents temp_paths loadOracle split with
  | .error e => (some ("❌ Error: " ++ e.message), s, temp_paths)
  | .ok chunks =>
    let r := create_vectorstore s persisted chunks
    (none, r.snd, unlinkAll temp_paths temp_paths)

/-- api.py startup (lines 32-37): `rag_engine = RAGEngine()` followed by
`rag_engine.load_existing_vectorstore()`. -/
def api_startup (chromaOpen : Except String (List Document)) : Bool × EngineState :=
  load_existing_vectorstore RAGEngine.init chromaOpen

/-- A sample chunk used for concrete instantiations. -/
def sampleDoc : Document :=
  { page_content := "The capital of France is Paris.", metadata := [("source", "facts.txt")] }

/-- A Ready engine: the initial engine after ingesting one chunk into a fresh
collection. -/
def readyOne : EngineState := (create_vectorstore RAGEngine.init [] [sampleDoc]).snd

/-- The state invariant of C9: the vector-store handle and the QA chain are
set or unset together. -/
def engineInv (s : EngineState) : Prop :=
  s.vectorstore = none ↔ s.qa_chain = none

/-- Erasing, in order, every element of a list from that same list empties
it: the model of a cleanup loop `for t in temps: os.unlink(t)` run against a
filesystem holding exactly `temps`. -/
theorem unlinkAll_self : ∀ l : List String, unlinkAll l l = []
  | [] => rfl
  | a :: t => by
      show List.foldl (fun fs x => fs.erase x) (a :: t) (a :: t) = []
      rw [List.foldl_cons, List.erase_cons_head]
      exact unlinkAll_self t

/-- String concatenation is associative. -/
theorem str_append_assoc (a b c : String) : a ++ b ++ c = a ++ (b ++ c) := by
  rcases a with ⟨la⟩; rcases b with ⟨lb⟩; rcases c with ⟨lc⟩
  show String.mk (la ++ lb ++ lc) = String.mk (la ++ (lb ++ lc))
  rw [List.append_assoc]

/-- An extension outside the accepted set makes `load_document` raise the
generic wrapped exception (class `Exception`, not a dedicated error type). -/
theorem load_document_unsupported (file_path : String)
    (loadResult : Except String (List Document))
    (h : pyLower (splitextExt file_path) ∉ config.SUPPORTED_EXTENSIONS) :
    load_document file_path loadResult =
      Except.error { cls := "Exception"
                   , message := "Error loading " ++ file_path ++ ": " ++ "Unsupported file type: "
                       ++ pyLower (splitextExt file_path) } := by
  simp only [config, List.mem_cons, List.mem_singleton, not_or] at h
  obtain ⟨h1, h2, h3, h4, -⟩ := h
  have hmerge : ∀ x : String,
      ": " ++ ("Unsupported file type: " ++ x) = ": Unsupported file type: " ++ x := by
    intro x
    rw [← str_append_assoc]
    simp
  simp [load_document, h1, h2, h3, h4, str_append_assoc, hmerge]

/-- A failing parse of a file with an accepted extension makes
`load_document` raise the generic wrapped exception with the cause in the
message. -/
theorem load_document_parse_error (file_path msg : String)
    (h : pyLower (splitextExt file_path) ∈ config.SUPPORTED_EXTENSIONS) :
    load_document file_path (Except.error msg) =
      Except.error { cls := "Exception"
                   , message := "Error loading " ++ file_path ++ ": " ++ msg } := by
  simp only [config, List.mem_cons, List.mem_singleton] at h
  rcases h with h | h | h | h | h
  all_goals simp [load_document, h]
  all_goals simp at h

/-- C1: For every question, calling `RAGEngine.query` while the engine is in
the Empty state (`qa_chain` is `None`) returns the sentinel result whose
answer says no documents are loaded and whose sources list is empty, and it
does so for every outcome of the external chain call (which is never made),
so it never raises. -/
theorem C1_empty_query_sentinel (s : EngineState) (question : String)
    (invokeResult : Except String (String × List Document))
    (h : s.qa_chain = none) :
    query s question invokeResult =
      { answer := "No documents loaded. Please upload documents first.", sources := [] } := by
  simp [query, h]

/-- C1 witness: the freshly constructed engine answers with the sentinel. -/
theorem C1_empty_query_sentinel_witness :
    query RAGEngine.init "What is the capital of France?"
        (Except.ok ("Paris", [sampleDoc])) =
      { answer := "No documents loaded. Please upload documents first.", sources := [] } :=
  C1_empty_query_sentinel RAGEngine.init "What is the capital of France?"
    (Except.ok ("Paris", [sampleDoc])) rfl

/-- C2: On a Ready engine, a failing chain invocation (embedding or
generation raising `e`) is not propagated: `query` returns
`{'answer': 'Error: ' + str(e), 'sources': []}`. -/
theorem C2_query_swallows_failure (s : EngineState) (question e : String)
    (h : s.qa_chain.isSome = true) :
    query s question (Except.error e) =
      { answer := "Error: " ++ e, sources := [] } := by
  cases hq : s.qa_chain with
  | none => rw [hq] at h; simp at h
  | some c => simp [query, hq]

/-- C2 witness: a concrete Ready engine with a failing generation call. -/
theorem C2_query_swallows_failure_witness :
    query readyOne "What is the capital of France?" (Except.error "connection refused") =
      { answer := "Error: " ++ "connection refused", sources := [] } :=
  C2_query_swallows_failure readyOne "What is the capital of France?" "connection refused" rfl

/-- C8: At construction the engine is Empty (both handles `None`); the
startup sequence of api.py attempts to open a persisted index: when the
external open succeeds the call reports true and the engine is Ready (QA
chain set), and when it fails the call reports false and the engine is
exactly the Empty initial state. -/
theorem C8_startup_empty_then_load_attempt :
    (RAGEngine.init.vectorstore = none ∧ RAGEngine.init.qa_chain = none) ∧
    (∀ persisted : List Document,
       (api_startup (Except.ok persisted)).fst = true ∧
       ((api_startup (Except.ok persisted)).snd.qa_chain).isSome = true) ∧
    (∀ e : String, api_startup (Except.error e) = (false, RAGEngine.init)) := by
  refine ⟨⟨rfl, rfl⟩, fun persisted => ⟨rfl, rfl⟩, fun e => rfl⟩

/-- C10: `clear_database` on an Empty engine (no vectorstore) returns True
and leaves the state unchanged, and its result does not depend on the
outcome of the external delete call — no deletion is attempted. -/
theorem C10_clear_on_empty_is_noop (s : EngineState) (h : s.vectorstore = none)
    (o₁ o₂ : Except String Unit) :
    clear_database s o₁ = (true, s) ∧ clear_database s o₁ = clear_database s o₂ := by
  simp [clear_database, h]

/-- C10 witness: the fresh Empty engine, with a succeeding and a failing
delete outcome. -/
theorem C10_clear_on_empty_is_noop_witness :
    clear_database RAGEngine.init (Except.ok ()) = (true, RAGEngine.init) ∧
    clear_database RAGEngine.init (Except.ok ()) =
      clear_database RAGEngine.init (Except.error "backend down") :=
  C10_clear_on_empty_is_noop RAGEngine.init rfl (Except.ok ()) (Except.error "backend down")

/-- C3 counterexample: called with the empty chunk sequence,
`create_vectorstore` does not fail with an EmptyInput error (the method has
no input validation at all): it proceeds to build the store and returns a
normal result — count 0, store created, QA chain set. -/
theorem C3_empty_input_counterexample :
    (create_vectorstore RAGEngine.init [] []).fst = 0 ∧
    ((create_vectorstore RAGEngine.init [] []).snd.vectorstore.map Vectorstore.entries)
      = some [] ∧
    ((create_vectorstore RAGEngine.init [] []).snd.qa_chain).isSome = true :=
  ⟨rfl, rfl, rfl⟩

/-- C3 (amended): `create_vectorstore` performs no empty-input validation;
for every chunk sequence, empty included, it builds/extends the store and
returns the number of chunks just passed (`len(documents)`), not the index
total (`persisted ++ documents`), and leaves the engine Ready. -/
theorem C3_ingest_returns_input_count (s : EngineState)
    (persisted documents : List Document) :
    (create_vectorstore s persisted documents).fst = documents.length ∧
    ((create_vectorstore s persisted documents).snd.vectorstore.map Vectorstore.entries)
      = some (persisted ++ documents) ∧
    ((create_vectorstore s persisted documents).snd.qa_chain).isSome = true :=
  ⟨rfl, rfl, rfl⟩

/-- C4 counterexample: an unsupported extension and a failing parse of an
accepted extension raise exceptions of the same class `Exception` — not a
distinct `UnsupportedType` and `ExtractionError` — so the two failure kinds
are not distinguishable by the caller other than by message text. -/
theorem C4_same_exception_class_counterexample :
    load_document "doc.xyz" (Except.ok []) =
      Except.error { cls := "Exception"
                   , message := "Error loading doc.xyz: Unsupported file type: .xyz" } ∧
    load_document "doc.pdf" (Except.error "corrupt header") =
      Except.error { cls := "Exception"
                   , message := "Error loading doc.pdf: corrupt header" } ∧
    "Exception" ≠ "UnsupportedType" ∧ "Exception" ≠ "ExtractionError" := by
  refine ⟨rfl, rfl, by decide, by decide⟩

/-- C4 (amended): an input path whose lowercased extension is outside
{.pdf, .txt, .docx, .md} makes the loader fail, and an accepted file that
cannot be parsed makes it fail wrapping the underlying cause — but both
failures are raised as the same generic `Exception` whose message is
"Error loading <path>: <cause>", so the two kinds are told apart only by
message text, not by exception class; `process_documents` propagates the
failure. -/
theorem C4_loader_failure_modes :
    (∀ file_path loadResult,
       pyLower (splitextExt file_path) ∉ config.SUPPORTED_EXTENSIONS →
       load_document file_path loadResult =
         Except.error { cls := "Exception"
                      , message := "Error loading " ++ file_path ++ ": "
                          ++ "Unsupported file type: " ++ pyLower (splitextExt file_path) }) ∧
    (∀ file_path msg,
       pyLower (splitextExt file_path) ∈ config.SUPPORTED_EXTENSIONS →
       load_document file_path (Except.error msg) =
         Except.error { cls := "Exception"
                      , message := "Error loading " ++ file_path ++ ": " ++ msg }) ∧
    (∀ file_path loadResult split,
       pyLower (splitextExt file_path) ∉ config.SUPPORTED_EXTENSIONS →
       process_documents [file_path] (fun _ => loadResult) split =
         Except.error { cls := "Exception"
                      , message := "Error loading " ++ file_path ++ ": "
                          ++ "Unsupported file type: " ++ pyLower (splitextExt file_path) }) := by
  refine ⟨load_document_unsupported, load_document_parse_error, ?_⟩
  intro file_path loadResult split h
  simp [process_documents, loadAll, load_document_unsupported file_path loadResult h]

/-- C4 witness: a rejected `.markdown` file and an accepted but corrupt
`.DOCX` file (upper-case, lowered before dispatch). -/
theorem C4_loader_failure_modes_witness :
    load_document "notes.markdown" (Except.ok []) =
      Except.error { cls := "Exception"
                   , message := "Error loading notes.markdown: Unsupported file type: .markdown" } ∧
    load_document "report.DOCX" (Except.error "bad zip") =
      Except.error { cls := "Exception"
                   , message := "Error loading report.DOCX: bad zip" } :=
  ⟨C4_loader_failure_modes.1 "notes.markdown" (Except.ok []) (by decide),
   C4_loader_failure_modes.2.1 "report.DOCX" "bad zip" (by decide)⟩

/-- C5: temp-file cleanup across the two front ends. The api.py upload
handler deletes every staged temp file on every exit path (its cleanup is in
a `finally` block). The app.py handler does not: its cleanup runs inside the
`try` only after successful processing, so at the concrete failing input —
one uploaded `doc.pdf` whose extraction raises — the staged temp file
survives the operation, contradicting the claim for the interactive UI. -/
theorem C5_temp_file_cleanup :
    (∀ files s persisted loadOracle split,
       (upload_documents files s persisted loadOracle split).2.2 = []) ∧
    app_process_documents [{ filename := "doc.pdf", content := "corrupt bytes" }]
        RAGEngine.init [] (fun _ => Except.error "corrupt") id =
      (some ("❌ Error: " ++ "Error loading tmp0.pdf: corrupt"),
       RAGEngine.init, ["tmp0.pdf"]) ∧
    (["tmp0.pdf"] : List String) ≠ [] := by
  refine ⟨?_, rfl, by decide⟩
  intro files s persisted loadOracle split
  by_cases hf : files.isEmpty
  · simp [upload_documents, hf]
  · simp [upload_documents, hf, unlinkAll_self]

/-- C6 counterexample: the engine's embedding model is the hardcoded
"nomic-embed-text", which is not the configured embedding-model setting
`config.EMBEDDING_MODEL` ("all-MiniLM-L6-v2"); that config entry is never
consumed by the engine. -/
theorem C6_config_model_counterexample :
    RAGEngine.init.embeddings.model = "nomic-embed-text" ∧
    config.EMBEDDING_MODEL = "all-MiniLM-L6-v2" ∧
    RAGEngine.init.embeddings.model ≠ config.EMBEDDING_MODEL := by
  refine ⟨rfl, rfl, by decide⟩

/-- C6 (amended): the engine embeds both ingested chunks and incoming
questions with the one `OllamaEmbeddings` handle created at construction —
whose model is the hardcoded "nomic-embed-text", not `config.EMBEDDING_MODEL`
— and that same handle is bound to the store at ingest and to the QA chain's
retriever, so embeddings from different models are never mixed in one
collection. -/
theorem C6_one_embedding_model_everywhere :
    RAGEngine.init.embeddings =
      { model := "nomic-embed-text", base_url := config.OLLAMA_BASE_URL } ∧
    (∀ s persisted documents,
       ((create_vectorstore s persisted documents).snd.vectorstore.map Vectorstore.embedding)
         = some s.embeddings ∧
       ((create_vectorstore s persisted documents).snd.qa_chain.map
           (fun c => c.retriever.store.embedding)) = some s.embeddings) ∧
    (∀ s persisted,
       ((load_existing_vectorstore s (Except.ok persisted)).snd.vectorstore.map
           Vectorstore.embedding) = some s.embeddings ∧
       ((load_existing_vectorstore s (Except.ok persisted)).snd.qa_chain.map
           (fun c => c.retriever.store.embedding)) = some s.embeddings) :=
  ⟨rfl, fun s persisted documents => ⟨rfl, rfl⟩, fun s persisted => ⟨rfl, rfl⟩⟩

/-- C7 counterexample: when the external deletion fails on a Ready engine
holding one chunk, `clear_database` returns False and leaves the engine
unchanged, and the following `get_stats` reports 1, not 0 — so "clear then
stats returns 0" does not hold unconditionally. -/
theorem C7_clear_failure_counterexample :
    (clear_database readyOne (Except.error "chroma backend down")).fst = false ∧
    (get_stats (clear_database readyOne (Except.error "chroma backend down")).snd
        true).total_chunks = 1 ∧
    (get_stats (clear_database readyOne (Except.error "chroma backend down")).snd
        true).total_chunks ≠ 0 := by
  refine ⟨rfl, rfl, by decide⟩

/-- C7 (amended): whenever `clear_database` reports success, a following
`get_stats` returns 0; on a loaded engine a successful deletion clears both
handles (transition to Empty) and returns True, while a failing deletion
returns False rather than raising and leaves the engine (hence the
surviving collection and its stats) unchanged. -/
theorem C7_clear_then_stats (s : EngineState) (deleteResult : Except String Unit)
    (backendOk : Bool) :
    ((clear_database s deleteResult).fst = true →
       (get_stats (clear_database s deleteResult).snd backendOk).total_chunks = 0) ∧
    (∀ vs, s.vectorstore = some vs →
       clear_database s (Except.ok ()) =
         (true, { s with vectorstore := none, qa_chain := none })) ∧
    (∀ vs e, s.vectorstore = some vs →
       clear_database s (Except.error e) = (false, s)) := by
  refine ⟨?_, ?_, ?_⟩
  · intro hT
    cases hv : s.vectorstore with
    | none => simp [clear_database, hv, get_stats]
    | some vs =>
      cases deleteResult with
      | ok u => simp [clear_database, hv, get_stats]
      | error e => simp [clear_database, hv] at hT
  · intro vs hv
    simp [clear_database, hv]
  · intro vs e hv
    simp [clear_database, hv]

/-- C7 witness: the one-chunk Ready engine, once with a succeeding deletion
(stats drop to 0) and once with a failing one (False, state kept). -/
theorem C7_clear_then_stats_witness :
    (get_stats (clear_database readyOne (Except.ok ())).snd true).total_chunks = 0 ∧
    clear_database readyOne (Except.error "chroma backend down") = (false, readyOne) :=
  ⟨(C7_clear_then_stats readyOne (Except.ok ()) true).1 rfl,
   (C7_clear_then_stats readyOne (Except.error "chroma backend down") true).2.2
     (Chroma.from_documents [] [sampleDoc] RAGEngine.init.embeddings config.COLLECTION_NAME)
     "chroma backend down" rfl⟩

/-- C9: the vector-store handle and the QA chain are `None` together — the
invariant holds after construction and is preserved by `create_vectorstore`,
by `load_existing_vectorstore` (both outcomes) and by `clear_database` (both
outcomes); `query` assigns no attribute, so it cannot disturb it. -/
theorem C9_handles_none_together :
    engineInv RAGEngine.init ∧
    (∀ s persisted documents, engineInv s →
       engineInv (create_vectorstore s persisted documents).snd) ∧
    (∀ s chromaOpen, engineInv s →
       engineInv (load_existing_vectorstore s chromaOpen).snd) ∧
    (∀ s deleteResult, engineInv s →
       engineInv (clear_database s deleteResult).snd) := by
  refine ⟨⟨fun _ => rfl, fun _ => rfl⟩, ?_, ?_, ?_⟩
  · intro s persisted documents h
    simp [engineInv, create_vectorstore, setup_qa_chain]
  · intro s chromaOpen h
    cases chromaOpen with
    | ok persisted => simp [engineInv, load_existing_vectorstore, setup_qa_chain]
    | error e => simpa [load_existing_vectorstore] using h
  · intro s deleteResult h
    cases hv : s.vectorstore with
    | none => simpa [clear_database, hv] using h
    | some vs =>
      cases deleteResult with
      | ok u => simp [engineInv, clear_database, hv]
      | error e => simpa [clear_database, hv] using h

/-- C9 witness: the invariant after a failed clear on the fresh engine. -/
theorem C9_handles_none_together_witness :
    engineInv (clear_database RAGEngine.init (Except.error "backend down")).snd :=
  C9_handles_none_together.2.2.2 RAGEngine.init (Except.error "backend down")
    ⟨fun _ => rfl, fun _ => rfl⟩

end RAG
